import Mathlib

/-!
Shallow embedding of `imageprocessing.go` (AppliedGo/imageprocessing).

The program chains third-party image libraries over Go's `image.Image`
abstraction: load a JPEG, smart-crop it via a detected rectangle and the
`SubImage` capability, save, reload, then apply saturate / multiply-self /
unsharp-mask / primitive-approximation stages, saving each result.

External collaborators (jpeg codec, smartcrop, bild, primitive) are modelled
as opaque function fields of an environment record `Env`; the glue code of the
repository is translated function by function.  Effectful execution is made
explicit: a `World` carries the wall clock and the global `math/rand` state, a
functional file system `FS` carries file contents, and every external call is
recorded in an event trace so that sequencing claims are expressible.
-/

namespace ImageProcessing

/-- Go `image.Rectangle`, flattened to its four coordinates
(`Min.X`, `Min.Y`, `Max.X`, `Max.Y`). -/
structure Rect where
  minX : Int
  minY : Int
  maxX : Int
  maxY : Int
deriving DecidableEq

/-- Go `image.Rectangle.Empty`: the rectangle contains no points. -/
def Rect.isEmpty (r : Rect) : Bool :=
  decide (r.maxX ≤ r.minX) || decide (r.maxY ≤ r.minY)

/-- Go `image.ZR`, the zero rectangle. -/
def Rect.zr : Rect := ⟨0, 0, 0, 0⟩

/-- Go `image.Rectangle.Intersect`: clip the corners to the common area and
return `ZR` when the result is empty. -/
def Rect.intersect (r s : Rect) : Rect :=
  let t : Rect := ⟨max r.minX s.minX, max r.minY s.minY,
                   min r.maxX s.maxX, min r.maxY s.maxY⟩
  if t.isEmpty then Rect.zr else t

/-- Membership of a pixel coordinate in a rectangle (Go `Point.In`). -/
def Rect.mem (r : Rect) (x y : Int) : Bool :=
  decide (r.minX ≤ x) && decide (x < r.maxX) &&
  decide (r.minY ≤ y) && decide (y < r.maxY)

/-- Go `image.Rectangle.In`: `r` is entirely inside `s` (an empty rectangle
is inside everything). -/
def Rect.inside (r s : Rect) : Bool :=
  if r.isEmpty then true
  else decide (s.minX ≤ r.minX) && decide (r.maxX ≤ s.maxX) &&
       decide (s.minY ≤ r.minY) && decide (r.maxY ≤ s.maxY)

/-- Model of Go `image.Image`: a bounding rectangle, pixel reads at absolute
coordinates (the `At` method; the unspecified concrete colour encoding is
abstracted to `Nat`), and whether the dynamic type additionally implements
the `SubImage` method of the `SubImager` interface of the source. -/
structure Image where
  bounds : Rect
  pixelAt : Int → Int → Nat
  supportsSubImage : Bool

/-- Semantics of the standard library `SubImage` methods (e.g.
`image.RGBA.SubImage`): the bounds become `r.Intersect(p.Rect)` and the pixel
storage is shared with the parent, so reads at absolute coordinates are
unchanged. -/
def subImage (img : Image) (r : Rect) : Image :=
  { bounds := r.intersect img.bounds
    pixelAt := img.pixelAt
    supportsSubImage := img.supportsSubImage }

/-- Opaque state of a `primitive.Model`. -/
structure PModel where
  state : Nat
deriving DecidableEq

/-- Ambient mutable state of the process: the wall clock
(`time.Now().UTC().UnixNano()`) and the global `math/rand` generator state. -/
structure World where
  clock : Nat
  rand : Nat
deriving DecidableEq

/-- Trace events: one per external call the glue code performs. -/
inductive Ev where
  | openF (path : String)
  | decodeF
  | smartcropF (width height : Int)
  | subImageF
  | createF (path : String)
  | encodeF (quality : Nat)
  | saturateF
  | multiplyF
  | sharpenF
  | resizeF (width height : Nat)
  | seedF (t : Nat)
  | avgColorF
  | newModelF (outputSize workers : Nat)
  | stepF (shape alpha rpt : Nat)
  | renderF
  | fatalF (msg : String)
deriving DecidableEq

/-- The external collaborators, as opaque functions.  `decode`/`encode` are
the jpeg codec (`encode` takes the quality option), `createErr` tells whether
`os.Create` fails at a path (and with which message), `smartcrop` is
`smartcrop.Crop`, the `bild` fields are `adjust.Saturation`, `blend.Multiply`,
`effect.UnsharpMask` and `transform.Resize`, and the `primitive` fields are
`AverageImageColor`, `MakeColor`, `NewModel`, `Model.Step` (which consumes and
returns the global rand state) and `Context.Image`.  `numCPU` is
`runtime.NumCPU()`. -/
structure Env where
  decode : List Nat → Except String Image
  encode : Image → Nat → Except String (List Nat)
  createErr : String → Option String
  smartcrop : Image → Int → Int → Except String Rect
  saturation : Image → Rat → Image
  multiplyBlend : Image → Image → Image
  unsharpMask : Image → Rat → Rat → Image
  resize : Image → Nat → Nat → Image
  averageImageColor : Image → Nat
  makeColor : Nat → Nat
  newModel : Image → Nat → Nat → Nat → PModel
  stepModel : PModel → Nat → Nat → Nat → Nat → PModel × Nat
  contextImage : PModel → Image
  numCPU : Nat

/-- A file system: path to file contents.  A present file with contents `[]`
is a file that was created (truncated) but not yet written. -/
abbrev FS : Type := String → Option (List Nat)

/-- Writing a file: functional update of the file system. -/
def fsWrite (fs : FS) (p : String) (v : List Nat) : FS :=
  fun q => if q = p then some v else fs q

/-- Message produced by `errors.Wrap(err, msg)`. -/
def wrap (err msg : String) : String := msg ++ ": " ++ err

/-- Go `path.Join` for the argument shapes this program uses; `path.Join`
cleans its result, so a `"."` or empty directory component drops out. -/
def pathJoin (pname fname : String) : String :=
  if pname = "." then fname
  else if pname = "" then fname
  else pname ++ "/" ++ fname

/-- Translation of `openImage`: `os.Open` the path, then `jpeg.Decode`;
each failure is wrapped with its own message. -/
def openImage (env : Env) (fs : FS) (p : String) :
    Except String Image × List Ev :=
  match fs p with
  | none => (.error (wrap "no such file or directory" ("Cannot open " ++ p)),
             [.openF p])
  | some bytes =>
    match env.decode bytes with
    | .error e => (.error (wrap e "Decoding the image failed."),
                   [.openF p, .decodeF])
    | .ok img => (.ok img, [.openF p, .decodeF])

/-- Translation of `saveImage`: join the path, `os.Create` (which truncates
any existing file to empty contents), then `jpeg.Encode` with the fixed
quality option 85; on encode failure the created empty file remains. -/
def saveImage (env : Env) (img : Image) (pname fname : String) (fs : FS) :
    Except String Unit × FS × List Ev :=
  let fpath := pathJoin pname fname
  match env.createErr fpath with
  | some e => (.error (wrap e ("Cannot create file: " ++ fpath)), fs,
               [.createF fpath])
  | none =>
    let fs1 := fsWrite fs fpath []
    match env.encode img 85 with
    | .error e => (.error (wrap e "Failed to encode the image as JPEG"), fs1,
                   [.createF fpath, .encodeF 85])
    | .ok bytes => (.ok (), fsWrite fs1 fpath bytes,
                    [.createF fpath, .encodeF 85])

/-- Translation of `crop`: ask `smartcrop.Crop` for a rectangle, then
type-assert the image to the `SubImager` interface; if the dynamic type does
not implement `SubImage` return the error value built by `errors.New`,
otherwise call `SubImage` with the rectangle, unchecked. -/
def crop (env : Env) (img : Image) (width height : Int) :
    Except String Image × List Ev :=
  match env.smartcrop img width height with
  | .error e => (.error (wrap e "Smartcrop failed"), [.smartcropF width height])
  | .ok rect =>
    if img.supportsSubImage then
      (.ok (subImage img rect), [.smartcropF width height, .subImageF])
    else
      (.error "crop(): img does not support SubImage()",
       [.smartcropF width height])

/-- The fixed saturation amount `0.5` passed to `adjust.Saturation`. -/
def satAmount : Rat := 1 / 2

/-- The fixed radius `0.6` passed to `effect.UnsharpMask`. -/
def sharpenRadius : Rat := 3 / 5

/-- The fixed amount `1.2` passed to `effect.UnsharpMask`. -/
def sharpenAmount : Rat := 6 / 5

/-- Translation of `saturate`: `adjust.Saturation(img, 0.5)`.  The function
performs no effect, so the world passes through unchanged. -/
def saturate (env : Env) (img : Image) (w : World) :
    Image × World × List Ev :=
  (env.saturation img satAmount, w, [.saturateF])

/-- Translation of `multiply`: `blend.Multiply(img, img)` — the image is
blended with itself.  No effect on the world. -/
def multiply (env : Env) (img : Image) (w : World) :
    Image × World × List Ev :=
  (env.multiplyBlend img img, w, [.multiplyF])

/-- Translation of `sharpen`: `effect.UnsharpMask(img, 0.6, 1.2)`.  No effect
on the world. -/
def sharpen (env : Env) (img : Image) (w : World) :
    Image × World × List Ev :=
  (env.unsharpMask img sharpenRadius sharpenAmount, w, [.sharpenF])

/-- The `for i := 0; i < 100; i++ { model.Step(ShapeType(5), 128, 0) }` loop:
iterate `Model.Step` with shape kind 5 (rotated rectangles), alpha 128 and
repeat 0, threading the model and the global rand state. -/
def stepLoop (env : Env) : Nat → PModel → Nat → PModel × Nat × List Ev
  | 0, m, r => (m, r, [])
  | n + 1, m, r =>
    let s := env.stepModel m 5 128 0 r
    let rest := stepLoop env n s.1 s.2
    (rest.1, rest.2.1, Ev.stepF 5 128 0 :: rest.2.2)

/-- Translation of `primitivePicture`: resize to 256x256, reseed the global
rand source from the wall clock, compute the background colour
(`MakeColor(AverageImageColor(img))`), build the model with output size 1024
and `runtime.NumCPU()` workers, run 100 steps, and render
`model.Context.Image()`. -/
def primitivePicture (env : Env) (img : Image) (w : World) :
    Image × World × List Ev :=
  let img1 := env.resize img 256 256
  let seed := w.clock
  let bg := env.makeColor (env.averageImageColor img1)
  let m0 := env.newModel img1 bg 1024 env.numCPU
  let res := stepLoop env 100 m0 seed
  (env.contextImage res.1, { clock := w.clock, rand := res.2.1 },
   [.resizeF 256 256, .seedF seed, .avgColorF, .newModelF 1024 env.numCPU]
     ++ res.2.2 ++ [.renderF])

/-- Result of a run of `main`: final file system, final world, the trace of
external calls, and the message passed to `log.Fatal` (which terminates the
process) if any step failed. -/
structure RunResult where
  fs : FS
  world : World
  events : List Ev
  fatal : Option String

/-- Translation of `main`: the fixed pipeline.  Each failing step hits
`log.Fatal`, which logs the wrapped error and terminates the process at once;
no later call happens and nothing already written is removed. -/
def main (env : Env) (w : World) (fs : FS) : RunResult :=
  match openImage env fs "original.jpg" with
  | (.error e, ev1) => ⟨fs, w, ev1 ++ [.fatalF e], some e⟩
  | (.ok img0, ev1) =>
  match crop env img0 1000 1000 with
  | (.error e, ev2) => ⟨fs, w, ev1 ++ ev2 ++ [.fatalF e], some e⟩
  | (.ok imgC, ev2) =>
  match saveImage env imgC "." "cropped.jpg" fs with
  | (.error e, fs1, ev3) => ⟨fs1, w, ev1 ++ ev2 ++ ev3 ++ [.fatalF e], some e⟩
  | (.ok _, fs1, ev3) =>
  match openImage env fs1 "cropped.jpg" with
  | (.error e, ev4) =>
      ⟨fs1, w, ev1 ++ ev2 ++ ev3 ++ ev4 ++ [.fatalF e], some e⟩
  | (.ok img1, ev4) =>
  let s5 := saturate env img1 w
  let sat := s5.1
  let w1 := s5.2.1
  let ev5 := s5.2.2
  match saveImage env sat "." "saturated.jpg" fs1 with
  | (.error e, fs2, ev6) =>
      ⟨fs2, w1, ev1 ++ ev2 ++ ev3 ++ ev4 ++ ev5 ++ ev6 ++ [.fatalF e], some e⟩
  | (.ok _, fs2, ev6) =>
  let s7 := multiply env img1 w1
  let mult := s7.1
  let w2 := s7.2.1
  let ev7 := s7.2.2
  match saveImage env mult "." "multiplied.jpg" fs2 with
  | (.error e, fs3, ev8) =>
      ⟨fs3, w2, ev1 ++ ev2 ++ ev3 ++ ev4 ++ ev5 ++ ev6 ++ ev7 ++ ev8 ++
        [.fatalF e], some e⟩
  | (.ok _, fs3, ev8) =>
  let s9 := sharpen env sat w2
  let shrp := s9.1
  let w3 := s9.2.1
  let ev9 := s9.2.2
  match saveImage env shrp "." "sharpened.jpg" fs3 with
  | (.error e, fs4, ev10) =>
      ⟨fs4, w3, ev1 ++ ev2 ++ ev3 ++ ev4 ++ ev5 ++ ev6 ++ ev7 ++ ev8 ++ ev9 ++
        ev10 ++ [.fatalF e], some e⟩
  | (.ok _, fs4, ev10) =>
  let s11 := primitivePicture env sat w3
  let pri := s11.1
  let w4 := s11.2.1
  let ev11 := s11.2.2
  match saveImage env pri "." "primitive.jpg" fs4 with
  | (.error e, fs5, ev12) =>
      ⟨fs5, w4, ev1 ++ ev2 ++ ev3 ++ ev4 ++ ev5 ++ ev6 ++ ev7 ++ ev8 ++ ev9 ++
        ev10 ++ ev11 ++ ev12 ++ [.fatalF e], some e⟩
  | (.ok _, fs5, ev12) =>
      ⟨fs5, w4, ev1 ++ ev2 ++ ev3 ++ ev4 ++ ev5 ++ ev6 ++ ev7 ++ ev8 ++ ev9 ++
        ev10 ++ ev11 ++ ev12, none⟩

/-- Paths of the files created (`os.Create`) during a trace. -/
def createdPaths (evs : List Ev) : List String :=
  evs.filterMap fun e => match e with | .createF p => some p | _ => none

/-- Paths of the files opened (`os.Open`) during a trace. -/
def openedPaths (evs : List Ev) : List String :=
  evs.filterMap fun e => match e with | .openF p => some p | _ => none

/-- Qualities passed to the jpeg encoder during a trace. -/
def encodeQualities (evs : List Ev) : List Nat :=
  evs.filterMap fun e => match e with | .encodeF q => some q | _ => none

/-- Concrete sample image that supports the `SubImage` capability. -/
def img0 : Image := ⟨⟨0, 0, 2000, 1500⟩, fun _ _ => 0, true⟩

/-- Concrete sample image whose dynamic type lacks the `SubImage` method. -/
def imgNoSub : Image := ⟨⟨0, 0, 2000, 1500⟩, fun _ _ => 0, false⟩

/-- Concrete rectangle the sample detector returns. -/
def rect0 : Rect := ⟨100, 200, 1100, 1200⟩

/-- Concrete environment for instantiating the theorems: every collaborator
succeeds, the encoder returns the quality byte, the model step advances the
rand state. -/
def env0 : Env where
  decode := fun _ => .ok img0
  encode := fun _ q => .ok [q]
  createErr := fun _ => none
  smartcrop := fun _ _ _ => .ok rect0
  saturation := fun i _ => i
  multiplyBlend := fun i _ => i
  unsharpMask := fun i _ _ => i
  resize := fun i _ _ => i
  averageImageColor := fun _ => 0
  makeColor := fun c => c
  newModel := fun _ _ _ _ => ⟨0⟩
  stepModel := fun m _ _ _ r => (m, r + 1)
  contextImage := fun _ => img0
  numCPU := 4

/-- Concrete world. -/
def w0 : World := ⟨123, 7⟩

/-- Concrete file system holding only the original photograph. -/
def fs0 : FS := fun p => if p = "original.jpg" then some [1] else none

/-- Concrete file system with a stale file at the save destination. -/
def fsPrev : FS := fun p => if p = "out/pic.jpg" then some [9, 9] else none

/-- Concrete empty file system. -/
def fsEmpty : FS := fun _ => none

/-- Environment whose jpeg encoder always fails. -/
def envBad : Env := { env0 with encode := fun _ _ => .error "boom" }

/-- Rectangle sticking out of the sample image bounds. -/
def rectWild : Rect := ⟨1500, 1000, 2500, 2000⟩

/-- Environment whose detector returns the out-of-bounds rectangle. -/
def envWild : Env := { env0 with smartcrop := fun _ _ _ => .ok rectWild }

/-- A nonempty rectangle contained in another is its own intersection with
it (the clipped corners coincide with the original corners). -/
theorem Rect.intersect_of_inside (r s : Rect) (hin : r.inside s = true)
    (hne : r.isEmpty = false) : r.intersect s = r := by
  obtain ⟨rx, ry, rX, rY⟩ := r
  obtain ⟨sx, sy, sX, sY⟩ := s
  simp [Rect.inside, hne] at hin
  obtain ⟨⟨⟨ha, hb⟩, hc⟩, hd⟩ := hin
  simp [Rect.intersect, max_eq_left ha, max_eq_left hc,
    min_eq_left hb, min_eq_left hd, hne]

/-- If clipping a rectangle to another returns it unchanged then it was
contained in the other. -/
theorem Rect.inside_of_intersect_eq (r s : Rect)
    (h : r.intersect s = r) : r.inside s = true := by
  obtain ⟨rx, ry, rX, rY⟩ := r
  obtain ⟨sx, sy, sX, sY⟩ := s
  simp only [Rect.intersect] at h
  split at h
  · simp only [Rect.zr] at h
    injection h with e1 e2 e3 e4
    subst e1; subst e2; subst e3; subst e4
    simp [Rect.inside, Rect.isEmpty]
  · injection h with h1 h2 h3 h4
    have ha : sx ≤ rx := max_eq_left_iff.mp h1
    have hc : sy ≤ ry := max_eq_left_iff.mp h2
    have hb : rX ≤ sX := min_eq_left_iff.mp h3
    have hd : rY ≤ sY := min_eq_left_iff.mp h4
    by_cases hre : Rect.isEmpty ⟨rx, ry, rX, rY⟩ = true
    · simp [Rect.inside, hre]
    · simp [Rect.inside, hre, ha, hb, hc, hd]

/-- C2: once the detector has produced a rectangle, an image whose concrete
representation does not implement the sub-view capability makes `crop` return
the typed error value (never a crash), while an image that does support it
yields the sub-view at the detected rectangle, sharing pixel storage with the
input (the pixel-read function is the very same, no copy). -/
theorem C2_crop_capability (env : Env) (img : Image) (width height : Int)
    (rect : Rect) (hdet : env.smartcrop img width height = .ok rect) :
    (img.supportsSubImage = false →
      (crop env img width height).1 =
        .error "crop(): img does not support SubImage()") ∧
    (img.supportsSubImage = true →
      (crop env img width height).1 = .ok (subImage img rect) ∧
      (subImage img rect).pixelAt = img.pixelAt ∧
      (subImage img rect).bounds = rect.intersect img.bounds) := by
  constructor
  · intro h
    simp [crop, hdet, h]
  · intro h
    refine ⟨by simp [crop, hdet, h], rfl, rfl⟩

/-- C2 witness: the concrete environment on an image without the capability
returns the typed error, and on one with the capability returns the shared
sub-view. -/
theorem C2_crop_capability_witness :
    (crop env0 imgNoSub 1000 1000).1 =
      .error "crop(): img does not support SubImage()" ∧
    (crop env0 img0 1000 1000).1 = .ok (subImage img0 rect0) := by
  exact ⟨(C2_crop_capability env0 imgNoSub 1000 1000 rect0 rfl).1 rfl,
    (((C2_crop_capability env0 img0 1000 1000 rect0 rfl).2) rfl).1⟩

/-- C4: when the detector returns a rectangle that satisfies its documented
contract (nonempty and wholly inside the image bounds) and the image supports
sub-views, the cropped image has bounds equal to that rectangle and its
pixel-read function is the original one, so reads inside the region agree
with the original at the same absolute coordinates. -/
theorem C4_crop_bounds_aliasing (env : Env) (img : Image)
    (width height : Int) (rect : Rect)
    (hdet : env.smartcrop img width height = .ok rect)
    (hin : rect.inside img.bounds = true)
    (hne : rect.isEmpty = false)
    (hsub : img.supportsSubImage = true) :
    (crop env img width height).1 = .ok (subImage img rect) ∧
    (subImage img rect).bounds = rect ∧
    (subImage img rect).pixelAt = img.pixelAt := by
  refine ⟨by simp [crop, hdet, hsub], ?_, rfl⟩
  show rect.intersect img.bounds = rect
  exact Rect.intersect_of_inside rect img.bounds hin hne

/-- C4 witness: concrete in-bounds nonempty rectangle, concrete image. -/
theorem C4_crop_bounds_aliasing_witness :
    (crop env0 img0 1000 1000).1 = .ok (subImage img0 rect0) ∧
    (subImage img0 rect0).bounds = rect0 ∧
    (subImage img0 rect0).pixelAt = img0.pixelAt := by
  exact C4_crop_bounds_aliasing env0 img0 1000 1000 rect0 rfl (by decide)
    (by decide) rfl

/-- C10: `crop` never validates the detected rectangle — whenever the image
supports sub-views it succeeds, and the returned view has bounds
`rect.Intersect(bounds)` (Go `SubImage` semantics), which equals the
rectangle only if the rectangle was contained in the image bounds. -/
theorem C10_crop_unchecked_intersection (env : Env) (img : Image)
    (width height : Int) (rect : Rect)
    (hdet : env.smartcrop img width height = .ok rect)
    (hsub : img.supportsSubImage = true) :
    (crop env img width height).1 = .ok (subImage img rect) ∧
    (subImage img rect).bounds = rect.intersect img.bounds ∧
    (rect.intersect img.bounds = rect → rect.inside img.bounds = true) := by
  refine ⟨by simp [crop, hdet, hsub], rfl, ?_⟩
  exact Rect.inside_of_intersect_eq rect img.bounds

/-- C10 witness: a rectangle sticking out of the image still crops
successfully, with clipped bounds. -/
theorem C10_crop_unchecked_intersection_witness :
    (crop envWild img0 1000 1000).1 = .ok (subImage img0 rectWild) ∧
    (subImage img0 rectWild).bounds = rectWild.intersect img0.bounds := by
  obtain ⟨h1, h2, _⟩ :=
    C10_crop_unchecked_intersection envWild img0 1000 1000 rectWild rfl rfl
  exact ⟨h1, h2⟩

/-- C5: the saturate, multiply-self and sharpen stages are deterministic pure
functions of their input image with fixed parameters: their output does not
depend on the ambient world state (clock, global rand), and they leave the
world untouched, so repeated calls on the same input produce identical
output pixel data. -/
theorem C5_effects_deterministic (env : Env) (img : Image) (w w' : World) :
    (saturate env img w).1 = (saturate env img w').1 ∧
    (saturate env img w).2.1 = w ∧
    (multiply env img w).1 = (multiply env img w').1 ∧
    (multiply env img w).2.1 = w ∧
    (sharpen env img w).1 = (sharpen env img w').1 ∧
    (sharpen env img w).2.1 = w :=
  ⟨rfl, rfl, rfl, rfl, rfl, rfl⟩

/-- C7: `saveImage` joins directory and file name into one destination path,
always encodes with the fixed quality 85 (not configurable), and on success
stores the encoded bytes at that path whatever was there before — any
existing file is overwritten without warning. -/
theorem C7_save_join_quality_overwrite (env : Env) (img : Image)
    (pname fname : String) (fs : FS) (bytes : List Nat)
    (hc : env.createErr (pathJoin pname fname) = none)
    (he : env.encode img 85 = .ok bytes) :
    (saveImage env img pname fname fs).1 = .ok () ∧
    (saveImage env img pname fname fs).2.1 (pathJoin pname fname) =
      some bytes ∧
    (saveImage env img pname fname fs).2.2 =
      [.createF (pathJoin pname fname), .encodeF 85] := by
  refine ⟨?_, ?_, ?_⟩ <;> simp [saveImage, hc, he, fsWrite]

/-- C7 witness: saving over an existing file replaces its contents with the
bytes encoded at quality 85. -/
theorem C7_save_join_quality_overwrite_witness :
    (saveImage env0 img0 "out" "pic.jpg" fsPrev).1 = .ok () ∧
    (saveImage env0 img0 "out" "pic.jpg" fsPrev).2.1 "out/pic.jpg" =
      some [85] ∧
    fsPrev "out/pic.jpg" = some [9, 9] := by
  obtain ⟨h1, h2, _⟩ :=
    C7_save_join_quality_overwrite env0 img0 "out" "pic.jpg" fsPrev [85]
      rfl rfl
  exact ⟨h1, h2, rfl⟩

/-- C9: `saveImage` creates (truncates) the destination file before encoding
starts, so when the encoder fails the error is returned but an empty file
remains at the destination — the file system is not left unchanged whenever
the destination did not already hold an empty file. -/
theorem C9_save_not_atomic (env : Env) (img : Image)
    (pname fname : String) (fs : FS) (e : String)
    (hc : env.createErr (pathJoin pname fname) = none)
    (he : env.encode img 85 = .error e) :
    (saveImage env img pname fname fs).1 =
      .error (wrap e "Failed to encode the image as JPEG") ∧
    (saveImage env img pname fname fs).2.1 (pathJoin pname fname) =
      some [] ∧
    (saveImage env img pname fname fs).2.2 =
      [.createF (pathJoin pname fname), .encodeF 85] ∧
    (fs (pathJoin pname fname) ≠ some [] →
      (saveImage env img pname fname fs).2.1 ≠ fs) := by
  have h2 : (saveImage env img pname fname fs).2.1 (pathJoin pname fname) =
      some [] := by
    simp [saveImage, hc, he, fsWrite]
  refine ⟨by simp [saveImage, hc, he], h2, by simp [saveImage, hc, he], ?_⟩
  intro hne heq
  exact hne (heq ▸ h2)

/-- C9 witness: failing encoder over an existing file leaves a truncated
empty file behind and a changed file system. -/
theorem C9_save_not_atomic_witness :
    (saveImage envBad img0 "out" "pic.jpg" fsPrev).1 =
      .error "Failed to encode the image as JPEG: boom" ∧
    (saveImage envBad img0 "out" "pic.jpg" fsPrev).2.1 "out/pic.jpg" =
      some [] ∧
    (saveImage envBad img0 "out" "pic.jpg" fsPrev).2.1 ≠ fsPrev := by
  obtain ⟨h1, h2, _, h4⟩ :=
    C9_save_not_atomic envBad img0 "out" "pic.jpg" fsPrev "boom" rfl rfl
  exact ⟨h1, h2, h4 (by decide)⟩

/-- The 100-iteration loop emits one step event per iteration, each with
shape kind 5, alpha 128 and repeat 0. -/
theorem stepLoop_events (env : Env) :
    ∀ (n : Nat) (m : PModel) (r : Nat),
      (stepLoop env n m r).2.2 = List.replicate n (Ev.stepF 5 128 0)
  | 0, _, _ => rfl
  | n + 1, m, r => by
      simp [stepLoop, stepLoop_events env n, List.replicate_succ]

/-- Event trace of the primitive stage: fixed 256x256 resize, reseed from
the clock, average colour, model with output size 1024, 100 steps, render. -/
theorem primitivePicture_events (env : Env) (img : Image) (w : World) :
    (primitivePicture env img w).2.2 =
      [.resizeF 256 256, .seedF w.clock, .avgColorF,
       .newModelF 1024 env.numCPU] ++
        List.replicate 100 (.stepF 5 128 0) ++ [.renderF] := by
  simp [primitivePicture, stepLoop_events]

/-- Filtering a replicated element that the filter rejects gives the empty
list. -/
theorem filterMap_replicate_of_none {α β : Type} (f : α → Option β) (a : α)
    (h : f a = none) :
    ∀ n, List.filterMap f (List.replicate n a) = []
  | 0 => rfl
  | n + 1 => by
      simp [List.replicate_succ, List.filterMap_cons, h,
        filterMap_replicate_of_none f a h n]

/-- C6 counterexample: the claim puts the average-colour computation before
the reseeding of the global rand source, but the code reseeds first: on a
concrete environment the actual call trace differs from the claimed order at
the second call, where the code seeds (from clock 123) before computing the
background colour. -/
theorem C6_counterexample :
    (primitivePicture env0 img0 w0).2.2 ≠
      [.resizeF 256 256, .avgColorF, .seedF 123, .newModelF 1024 4] ++
        List.replicate 100 (.stepF 5 128 0) ++ [.renderF] ∧
    (primitivePicture env0 img0 w0).2.2 =
      [.resizeF 256 256, .seedF 123, .avgColorF, .newModelF 1024 4] ++
        List.replicate 100 (.stepF 5 128 0) ++ [.renderF] := by
  constructor
  · decide
  · decide

/-- C6 amended: `primitivePicture` downsamples to the fixed 256x256 working
resolution, reseeds the global rand source from the wall clock, computes the
average colour as background, runs exactly 100 model steps of shape kind 5
with alpha 128 and repeat 0, and returns the canvas rendered by the model
built with output size 1024; the final rand state is the one produced by the
steps from the clock-derived seed. -/
theorem C6_primitive_stage (env : Env) (img : Image) (w : World) :
    (primitivePicture env img w).2.2 =
      [.resizeF 256 256, .seedF w.clock, .avgColorF,
       .newModelF 1024 env.numCPU] ++
        List.replicate 100 (.stepF 5 128 0) ++ [.renderF] ∧
    (primitivePicture env img w).1 =
      env.contextImage (stepLoop env 100
        (env.newModel (env.resize img 256 256)
          (env.makeColor (env.averageImageColor (env.resize img 256 256)))
          1024 env.numCPU) w.clock).1 ∧
    (primitivePicture env img w).2.1 =
      ⟨w.clock, (stepLoop env 100
        (env.newModel (env.resize img 256 256)
          (env.makeColor (env.averageImageColor (env.resize img 256 256)))
          1024 env.numCPU) w.clock).2.1⟩ := by
  exact ⟨primitivePicture_events env img w, rfl, rfl⟩

/-- Characterization of a fully successful run of `main`: given that every
external call succeeds (with named intermediate values), the run terminates
normally, its call trace is the fixed pipeline order, the five output files
hold the encodings of the correctly wired stage outputs (multiply applied to
the reloaded decode `img1` of the cropped bytes, sharpen and primitive to the
saturated image), all other paths are untouched, and the final world is the
one the primitive stage produced. -/
theorem main_success_spec (env : Env) (w : World) (fs : FS)
    (bs0 : List Nat) (imgA : Image) (rect : Rect) (bs1 : List Nat)
    (img1 : Image) (bs2 bs3 bs4 bs5 : List Nat)
    (h0 : fs "original.jpg" = some bs0)
    (h1 : env.decode bs0 = .ok imgA)
    (h2 : env.smartcrop imgA 1000 1000 = .ok rect)
    (h3 : imgA.supportsSubImage = true)
    (h4 : env.createErr "cropped.jpg" = none)
    (h5 : env.encode (subImage imgA rect) 85 = .ok bs1)
    (h6 : env.decode bs1 = .ok img1)
    (h7 : env.createErr "saturated.jpg" = none)
    (h8 : env.encode (env.saturation img1 satAmount) 85 = .ok bs2)
    (h9 : env.createErr "multiplied.jpg" = none)
    (h10 : env.encode (env.multiplyBlend img1 img1) 85 = .ok bs3)
    (h11 : env.createErr "sharpened.jpg" = none)
    (h12 : env.encode (env.unsharpMask (env.saturation img1 satAmount)
      sharpenRadius sharpenAmount) 85 = .ok bs4)
    (h13 : env.createErr "primitive.jpg" = none)
    (h14 : env.encode
      (primitivePicture env (env.saturation img1 satAmount) w).1 85 =
      .ok bs5) :
    (main env w fs).fatal = none ∧
    (main env w fs).events =
      [.openF "original.jpg", .decodeF, .smartcropF 1000 1000, .subImageF,
       .createF "cropped.jpg", .encodeF 85, .openF "cropped.jpg", .decodeF,
       .saturateF, .createF "saturated.jpg", .encodeF 85, .multiplyF,
       .createF "multiplied.jpg", .encodeF 85, .sharpenF,
       .createF "sharpened.jpg", .encodeF 85] ++
      (primitivePicture env (env.saturation img1 satAmount) w).2.2 ++
      [.createF "primitive.jpg", .encodeF 85] ∧
    (main env w fs).fs "cropped.jpg" = some bs1 ∧
    (main env w fs).fs "saturated.jpg" = some bs2 ∧
    (main env w fs).fs "multiplied.jpg" = some bs3 ∧
    (main env w fs).fs "sharpened.jpg" = some bs4 ∧
    (main env w fs).fs "primitive.jpg" = some bs5 ∧
    (∀ q, q ≠ "cropped.jpg" → q ≠ "saturated.jpg" → q ≠ "multiplied.jpg" →
      q ≠ "sharpened.jpg" → q ≠ "primitive.jpg" →
      (main env w fs).fs q = fs q) ∧
    (main env w fs).world =
      (primitivePicture env (env.saturation img1 satAmount) w).2.1 := by
  have hpres : ∀ q, q ≠ "cropped.jpg" → q ≠ "saturated.jpg" →
      q ≠ "multiplied.jpg" → q ≠ "sharpened.jpg" → q ≠ "primitive.jpg" →
      (main env w fs).fs q = fs q := by
    intro q hq1 hq2 hq3 hq4 hq5
    simp [main, openImage, crop, saveImage, saturate, multiply, sharpen,
      pathJoin, fsWrite, h0, h1, h2, h3, h4, h5, h6, h7, h8, h9, h10, h11,
      h12, h13, h14, hq1, hq2, hq3, hq4, hq5]
  refine ⟨?_, ?_, ?_, ?_, ?_, ?_, ?_, hpres, ?_⟩ <;>
    simp [main, openImage, crop, saveImage, saturate, multiply, sharpen,
      pathJoin, fsWrite, h0, h1, h2, h3, h4, h5, h6, h7, h8, h9, h10, h11,
      h12, h13, h14]

/-- C1: the orchestrator performs exactly the fixed sequence with the
claimed data wiring — load the original, detect a region and crop, save the
cropped view, reload the cropped file from disk (the independent decode
`img1` of the saved bytes, not the in-memory sub-view), saturate the
reloaded image and save, multiply the reloaded image with itself (not the
saturated one) and save, sharpen the saturated image and save, and
primitive-approximate the saturated image and save; the trace lists the
calls in this order and each output file holds the encoding of the
corresponding stage output. -/
theorem C1_pipeline_order_and_wiring (env : Env) (w : World) (fs : FS)
    (bs0 : List Nat) (imgA : Image) (rect : Rect) (bs1 : List Nat)
    (img1 : Image) (bs2 bs3 bs4 bs5 : List Nat)
    (h0 : fs "original.jpg" = some bs0)
    (h1 : env.decode bs0 = .ok imgA)
    (h2 : env.smartcrop imgA 1000 1000 = .ok rect)
    (h3 : imgA.supportsSubImage = true)
    (h4 : env.createErr "cropped.jpg" = none)
    (h5 : env.encode (subImage imgA rect) 85 = .ok bs1)
    (h6 : env.decode bs1 = .ok img1)
    (h7 : env.createErr "saturated.jpg" = none)
    (h8 : env.encode (env.saturation img1 satAmount) 85 = .ok bs2)
    (h9 : env.createErr "multiplied.jpg" = none)
    (h10 : env.encode (env.multiplyBlend img1 img1) 85 = .ok bs3)
    (h11 : env.createErr "sharpened.jpg" = none)
    (h12 : env.encode (env.unsharpMask (env.saturation img1 satAmount)
      sharpenRadius sharpenAmount) 85 = .ok bs4)
    (h13 : env.createErr "primitive.jpg" = none)
    (h14 : env.encode
      (primitivePicture env (env.saturation img1 satAmount) w).1 85 =
      .ok bs5) :
    (main env w fs).fatal = none ∧
    (main env w fs).events =
      [.openF "original.jpg", .decodeF, .smartcropF 1000 1000, .subImageF,
       .createF "cropped.jpg", .encodeF 85, .openF "cropped.jpg", .decodeF,
       .saturateF, .createF "saturated.jpg", .encodeF 85, .multiplyF,
       .createF "multiplied.jpg", .encodeF 85, .sharpenF,
       .createF "sharpened.jpg", .encodeF 85] ++
      (primitivePicture env (env.saturation img1 satAmount) w).2.2 ++
      [.createF "primitive.jpg", .encodeF 85] ∧
    (main env w fs).fs "cropped.jpg" = some bs1 ∧
    (main env w fs).fs "saturated.jpg" = some bs2 ∧
    (main env w fs).fs "multiplied.jpg" = some bs3 ∧
    (main env w fs).fs "sharpened.jpg" = some bs4 ∧
    (main env w fs).fs "primitive.jpg" = some bs5 ∧
    (main env w fs).world =
      (primitivePicture env (env.saturation img1 satAmount) w).2.1 := by
  obtain ⟨c1, c2, c3, c4, c5, c6, c7, _, c9⟩ :=
    main_success_spec env w fs bs0 imgA rect bs1 img1 bs2 bs3 bs4 bs5
      h0 h1 h2 h3 h4 h5 h6 h7 h8 h9 h10 h11 h12 h13 h14
  exact ⟨c1, c2, c3, c4, c5, c6, c7, c9⟩

/-- C1 witness: the concrete environment runs the pipeline to completion and
the multiplied output holds the encoding produced from the reloaded image. -/
theorem C1_pipeline_order_and_wiring_witness :
    (main env0 w0 fs0).fatal = none ∧
    (main env0 w0 fs0).fs "multiplied.jpg" = some [85] ∧
    (main env0 w0 fs0).fs "sharpened.jpg" = some [85] := by
  obtain ⟨c1, _, _, _, c5, c6, _, _⟩ :=
    C1_pipeline_order_and_wiring env0 w0 fs0 [1] img0 rect0 [85] img0
      [85] [85] [85] [85] rfl rfl rfl rfl rfl rfl rfl rfl rfl rfl rfl rfl
      rfl rfl rfl
  exact ⟨c1, c5, c6⟩

/-- C3: every failing step makes the orchestrator terminate at once with the
wrapped error — the trace ends at the failing call followed by the fatal
log, no later external call happens, files already written stay on disk
untouched (the file system is exactly the one accumulated so far), and the
world is untouched by any failure before the primitive stage. -/
theorem C3_fail_fast (env : Env) (w : World) (fs : FS) :
    (∀ e ev, openImage env fs "original.jpg" = (.error e, ev) →
      main env w fs = ⟨fs, w, ev ++ [.fatalF e], some e⟩) ∧
    (∀ imgA ev1 e ev,
      openImage env fs "original.jpg" = (.ok imgA, ev1) →
      crop env imgA 1000 1000 = (.error e, ev) →
      main env w fs = ⟨fs, w, ev1 ++ ev ++ [.fatalF e], some e⟩) ∧
    (∀ imgA ev1 imgC ev2 e fs1 ev,
      openImage env fs "original.jpg" = (.ok imgA, ev1) →
      crop env imgA 1000 1000 = (.ok imgC, ev2) →
      saveImage env imgC "." "cropped.jpg" fs = (.error e, fs1, ev) →
      main env w fs = ⟨fs1, w, ev1 ++ ev2 ++ ev ++ [.fatalF e], some e⟩) ∧
    (∀ imgA ev1 imgC ev2 fs1 ev3 e ev,
      openImage env fs "original.jpg" = (.ok imgA, ev1) →
      crop env imgA 1000 1000 = (.ok imgC, ev2) →
      saveImage env imgC "." "cropped.jpg" fs = (.ok (), fs1, ev3) →
      openImage env fs1 "cropped.jpg" = (.error e, ev) →
      main env w fs =
        ⟨fs1, w, ev1 ++ ev2 ++ ev3 ++ ev ++ [.fatalF e], some e⟩) ∧
    (∀ imgA ev1 imgC ev2 fs1 ev3 img1 ev4 e fs2 ev,
      openImage env fs "original.jpg" = (.ok imgA, ev1) →
      crop env imgA 1000 1000 = (.ok imgC, ev2) →
      saveImage env imgC "." "cropped.jpg" fs = (.ok (), fs1, ev3) →
      openImage env fs1 "cropped.jpg" = (.ok img1, ev4) →
      saveImage env (env.saturation img1 satAmount) "." "saturated.jpg" fs1
        = (.error e, fs2, ev) →
      main env w fs =
        ⟨fs2, w, ev1 ++ ev2 ++ ev3 ++ ev4 ++ [.saturateF] ++ ev ++
          [.fatalF e], some e⟩) ∧
    (∀ imgA ev1 imgC ev2 fs1 ev3 img1 ev4 fs2 ev6 e fs3 ev,
      openImage env fs "original.jpg" = (.ok imgA, ev1) →
      crop env imgA 1000 1000 = (.ok imgC, ev2) →
      saveImage env imgC "." "cropped.jpg" fs = (.ok (), fs1, ev3) →
      openImage env fs1 "cropped.jpg" = (.ok img1, ev4) →
      saveImage env (env.saturation img1 satAmount) "." "saturated.jpg" fs1
        = (.ok (), fs2, ev6) →
      saveImage env (env.multiplyBlend img1 img1) "." "multiplied.jpg" fs2
        = (.error e, fs3, ev) →
      main env w fs =
        ⟨fs3, w, ev1 ++ ev2 ++ ev3 ++ ev4 ++ [.saturateF] ++ ev6 ++
          [.multiplyF] ++ ev ++ [.fatalF e], some e⟩) ∧
    (∀ imgA ev1 imgC ev2 fs1 ev3 img1 ev4 fs2 ev6 fs3 ev8 e fs4 ev,
      openImage env fs "original.jpg" = (.ok imgA, ev1) →
      crop env imgA 1000 1000 = (.ok imgC, ev2) →
      saveImage env imgC "." "cropped.jpg" fs = (.ok (), fs1, ev3) →
      openImage env fs1 "cropped.jpg" = (.ok img1, ev4) →
      saveImage env (env.saturation img1 satAmount) "." "saturated.jpg" fs1
        = (.ok (), fs2, ev6) →
      saveImage env (env.multiplyBlend img1 img1) "." "multiplied.jpg" fs2
        = (.ok (), fs3, ev8) →
      saveImage env (env.unsharpMask (env.saturation img1 satAmount)
        sharpenRadius sharpenAmount) "." "sharpened.jpg" fs3
        = (.error e, fs4, ev) →
      main env w fs =
        ⟨fs4, w, ev1 ++ ev2 ++ ev3 ++ ev4 ++ [.saturateF] ++ ev6 ++
          [.multiplyF] ++ ev8 ++ [.sharpenF] ++ ev ++ [.fatalF e],
          some e⟩) ∧
    (∀ imgA ev1 imgC ev2 fs1 ev3 img1 ev4 fs2 ev6 fs3 ev8 fs4 ev10 e fs5 ev,
      openImage env fs "original.jpg" = (.ok imgA, ev1) →
      crop env imgA 1000 1000 = (.ok imgC, ev2) →
      saveImage env imgC "." "cropped.jpg" fs = (.ok (), fs1, ev3) →
      openImage env fs1 "cropped.jpg" = (.ok img1, ev4) →
      saveImage env (env.saturation img1 satAmount) "." "saturated.jpg" fs1
        = (.ok (), fs2, ev6) →
      saveImage env (env.multiplyBlend img1 img1) "." "multiplied.jpg" fs2
        = (.ok (), fs3, ev8) →
      saveImage env (env.unsharpMask (env.saturation img1 satAmount)
        sharpenRadius sharpenAmount) "." "sharpened.jpg" fs3
        = (.ok (), fs4, ev10) →
      saveImage env
        (primitivePicture env (env.saturation img1 satAmount) w).1 "."
        "primitive.jpg" fs4 = (.error e, fs5, ev) →
      main env w fs =
        ⟨fs5, (primitivePicture env (env.saturation img1 satAmount) w).2.1,
          ev1 ++ ev2 ++ ev3 ++ ev4 ++ [.saturateF] ++ ev6 ++
          [.multiplyF] ++ ev8 ++ [.sharpenF] ++ ev10 ++
          (primitivePicture env (env.saturation img1 satAmount) w).2.2 ++
          ev ++ [.fatalF e], some e⟩) := by
  refine ⟨?_, ?_, ?_, ?_, ?_, ?_, ?_, ?_⟩
  · intro e ev hOpen
    simp [main, hOpen]
  · intro imgA ev1 e ev hOpen hCrop
    simp [main, hOpen, hCrop]
  · intro imgA ev1 imgC ev2 e fs1 ev hOpen hCrop hSave
    simp [main, hOpen, hCrop, hSave]
  · intro imgA ev1 imgC ev2 fs1 ev3 e ev hOpen hCrop hSave hOpen2
    simp [main, hOpen, hCrop, hSave, hOpen2]
  · intro imgA ev1 imgC ev2 fs1 ev3 img1 ev4 e fs2 ev hOpen hCrop hSave
      hOpen2 hSave2
    simp [main, saturate, hOpen, hCrop, hSave, hOpen2, hSave2]
  · intro imgA ev1 imgC ev2 fs1 ev3 img1 ev4 fs2 ev6 e fs3 ev hOpen hCrop
      hSave hOpen2 hSave2 hSave3
    simp [main, saturate, multiply, hOpen, hCrop, hSave, hOpen2, hSave2,
      hSave3]
  · intro imgA ev1 imgC ev2 fs1 ev3 img1 ev4 fs2 ev6 fs3 ev8 e fs4 ev hOpen
      hCrop hSave hOpen2 hSave2 hSave3 hSave4
    simp [main, saturate, multiply, sharpen, hOpen, hCrop, hSave, hOpen2,
      hSave2, hSave3, hSave4]
  · intro imgA ev1 imgC ev2 fs1 ev3 img1 ev4 fs2 ev6 fs3 ev8 fs4 ev10 e fs5
      ev hOpen hCrop hSave hOpen2 hSave2 hSave3 hSave4 hSave5
    simp [main, saturate, multiply, sharpen, hOpen, hCrop, hSave, hOpen2,
      hSave2, hSave3, hSave4, hSave5]

/-- C3 witness: with no file on disk the very first step fails and the run
ends immediately with the wrapped message and an unchanged file system. -/
theorem C3_fail_fast_witness :
    main env0 w0 fsEmpty =
      ⟨fsEmpty, w0,
       [.openF "original.jpg",
        .fatalF "Cannot open original.jpg: no such file or directory"],
       some "Cannot open original.jpg: no such file or directory"⟩ := by
  have h := (C3_fail_fast env0 w0 fsEmpty).1
    "Cannot open original.jpg: no such file or directory"
    [.openF "original.jpg"] rfl
  simpa using h

/-- C8 counterexample: a complete successful run creates five output files,
not four — the claim's own list (cropped, saturated, multiplied, sharpened,
primitive) already has five entries, and on a concrete environment the run
indeed creates exactly these five paths. -/
theorem C8_counterexample :
    (main env0 w0 fs0).fatal = none ∧
    createdPaths (main env0 w0 fs0).events =
      ["cropped.jpg", "saturated.jpg", "multiplied.jpg", "sharpened.jpg",
       "primitive.jpg"] ∧
    ¬(createdPaths (main env0 w0 fs0).events).length = 4 := by
  refine ⟨by decide, by decide, by decide⟩

/-- C8 amended: a complete successful run opens exactly one pre-existing
input file (the original; the second opened path is the cropped file the run
itself just created), creates exactly five output image files — cropped,
saturated, multiplied, sharpened, primitive — in the working directory, all
encoded through the jpeg encoder at the single fixed quality 85, and touches
no other path. -/
theorem C8_run_io_profile (env : Env) (w : World) (fs : FS)
    (bs0 : List Nat) (imgA : Image) (rect : Rect) (bs1 : List Nat)
    (img1 : Image) (bs2 bs3 bs4 bs5 : List Nat)
    (h0 : fs "original.jpg" = some bs0)
    (h1 : env.decode bs0 = .ok imgA)
    (h2 : env.smartcrop imgA 1000 1000 = .ok rect)
    (h3 : imgA.supportsSubImage = true)
    (h4 : env.createErr "cropped.jpg" = none)
    (h5 : env.encode (subImage imgA rect) 85 = .ok bs1)
    (h6 : env.decode bs1 = .ok img1)
    (h7 : env.createErr "saturated.jpg" = none)
    (h8 : env.encode (env.saturation img1 satAmount) 85 = .ok bs2)
    (h9 : env.createErr "multiplied.jpg" = none)
    (h10 : env.encode (env.multiplyBlend img1 img1) 85 = .ok bs3)
    (h11 : env.createErr "sharpened.jpg" = none)
    (h12 : env.encode (env.unsharpMask (env.saturation img1 satAmount)
      sharpenRadius sharpenAmount) 85 = .ok bs4)
    (h13 : env.createErr "primitive.jpg" = none)
    (h14 : env.encode
      (primitivePicture env (env.saturation img1 satAmount) w).1 85 =
      .ok bs5) :
    (main env w fs).fatal = none ∧
    openedPaths (main env w fs).events = ["original.jpg", "cropped.jpg"] ∧
    createdPaths (main env w fs).events =
      ["cropped.jpg", "saturated.jpg", "multiplied.jpg", "sharpened.jpg",
       "primitive.jpg"] ∧
    encodeQualities (main env w fs).events = [85, 85, 85, 85, 85] ∧
    (∀ q, q ≠ "cropped.jpg" → q ≠ "saturated.jpg" → q ≠ "multiplied.jpg" →
      q ≠ "sharpened.jpg" → q ≠ "primitive.jpg" →
      (main env w fs).fs q = fs q) := by
  obtain ⟨c1, c2, _, _, _, _, _, c8, _⟩ :=
    main_success_spec env w fs bs0 imgA rect bs1 img1 bs2 bs3 bs4 bs5
      h0 h1 h2 h3 h4 h5 h6 h7 h8 h9 h10 h11 h12 h13 h14
  refine ⟨c1, ?_, ?_, ?_, c8⟩ <;>
    rw [c2, primitivePicture_events] <;>
    simp [openedPaths, createdPaths, encodeQualities,
      List.filterMap_append, List.filterMap_cons,
      filterMap_replicate_of_none]

/-- C8 witness: the concrete environment exhibits the five created paths and
the two opens. -/
theorem C8_run_io_profile_witness :
    (main env0 w0 fs0).fatal = none ∧
    openedPaths (main env0 w0 fs0).events =
      ["original.jpg", "cropped.jpg"] ∧
    encodeQualities (main env0 w0 fs0).events = [85, 85, 85, 85, 85] := by
  obtain ⟨c1, c2, _, c4, _⟩ :=
    C8_run_io_profile env0 w0 fs0 [1] img0 rect0 [85] img0 [85] [85] [85]
      [85] rfl rfl rfl rfl rfl rfl rfl rfl rfl rfl rfl rfl rfl rfl rfl
  exact ⟨c1, c2, c4⟩

end ImageProcessing
